import Mathlib

/-!
Shallow embedding of the asteroid maker contract
(`contracts/tokenomics/maker/src/contract.rs` together with the message types
of `packages/astroport/src/maker.rs`), covering the collection entry point,
the batch swap planner, the three-tier route resolver and the bounded
recursive dispatcher.  Helpers that live in the contract's `utils.rs`
(absent from the sources at hand) are modelled from the specification and
marked as such in their doc comments.  Machine integers (`u64`, `Uint128`)
are modelled as `Nat`: none of the verified properties involves overflow.
The execution substrate commits an invocation atomically: an invocation
that returns an error leaves persistent state unchanged (`collectStep`).
-/

deriving instance DecidableEq for Except

namespace Maker

/-- Token reference: a native chain asset or a contract-based token
(`astroport::asset::AssetInfo`).  Equality is structural; `toString` is the
canonical string form used for storage keys. -/
inductive AssetInfo where
  | native (denom : String)
  | token (contractAddr : String)
deriving DecidableEq, Repr

/-- Canonical string form of a token reference, as used for `BRIDGES`
storage keys and the duplicate check (`AssetInfo::to_string`). -/
def AssetInfo.toString : AssetInfo → String
  | .native denom => denom
  | .token contractAddr => contractAddr

/-- Swap request item: a fee token plus an optional cap on the amount to
swap (`AssetWithLimit`). -/
structure AssetWithLimit where
  info : AssetInfo
  limit : Option Nat
deriving DecidableEq, Repr

/-- Outbound instructions a response can carry: a pool swap of `amount` of
`offer` into `ask`, the self-directed continue-routing instruction
(`ExecuteMsg::SwapBridgeAssets`), or the distribution instruction
(`ExecuteMsg::DistributeAstro`). -/
inductive SubMsg where
  | swap (offer : AssetInfo) (ask : AssetInfo) (amount : Nat)
  | swapBridgeAssets (assets : List AssetInfo) (depth : Nat)
  | distributeAstro
deriving DecidableEq, Repr

/-- Whether a message is the continue-routing instruction. -/
def SubMsg.isContinuation : SubMsg → Bool
  | .swapBridgeAssets _ _ => true
  | _ => false

/-- Result of the route resolver for one token (`enum SwapTarget`):
either a swap straight to the ROIDS target token, or a bridge-bound swap
into an intermediate token. -/
inductive SwapTarget where
  | roids (msg : SubMsg)
  | bridge (asset : AssetInfo) (msg : SubMsg)
deriving DecidableEq, Repr

/-- Error taxonomy of the contract (`ContractError`), restricted to the
variants reachable from the embedded entry points.  `Std` stands for a
generic `StdError` with its message text. -/
inductive ContractError where
  | Cooldown (next_collect_ts : Nat)
  | DuplicatedAsset
  | CannotSwap (token : AssetInfo)
  | Unauthorized
  | MaxBridgeDepth (depth : Nat)
  | InvalidBridgeNoPool (from_token : AssetInfo) (bridge_token : AssetInfo)
  | InvalidBridgeDestination (from_token : AssetInfo)
  | Std (msg : String)
deriving DecidableEq, Repr

/-- Contract configuration (`Config`), restricted to the fields the
embedded entry points read.  `max_spread` does not influence any routing
decision and is therefore not carried. -/
structure Config where
  owner : String
  factory_contract : String
  default_bridge : Option AssetInfo
  roids_token : AssetInfo
  collect_cooldown : Option Nat
deriving DecidableEq, Repr

/-- Persistent contract state: the configuration record, the bridge table
(`BRIDGES`, keyed by the source token's string form) and the
last-collection timestamp (`LAST_COLLECT_TS`). -/
structure State where
  config : Config
  bridges : List (String × AssetInfo)
  last_collect_ts : Nat
deriving DecidableEq, Repr

/-- Invocation environment: the contract's own address and the block time
in seconds (`Env`). -/
structure Env where
  contract_address : String
  now : Nat
deriving DecidableEq, Repr

/-- Message metadata: the caller (`MessageInfo::sender`). -/
structure MessageInfo where
  sender : String
deriving DecidableEq, Repr

/-- External read-only collaborators: the contract's held balance of a
token (`query_pool` against the contract's own address) and whether the
factory knows a pool for a pair of tokens (the Liquidity Pool Gateway). -/
structure Querier where
  balanceOf : AssetInfo → Nat
  pairExists : AssetInfo → AssetInfo → Bool

/-- Modelled from the spec: `BRIDGES_INITIAL_DEPTH` (utils.rs, absent from
src/), the depth at which a bridge-path validation starts. -/
def BRIDGES_INITIAL_DEPTH : Nat := 0

/-- Modelled from the spec: `BRIDGES_MAX_DEPTH` (utils.rs, absent from
src/), the fixed maximum lookup depth of bridge-table validation
(spec 4.3, "a small fixed number of hops"). -/
def BRIDGES_MAX_DEPTH : Nat := 2

/-- Modelled from the spec: `BRIDGES_EXECUTION_MAX_DEPTH` (utils.rs,
absent from src/), the fixed ceiling at which a continue-routing
invocation is refused (spec 4.4, "a fixed ceiling"). -/
def BRIDGES_EXECUTION_MAX_DEPTH : Nat := 2

/-- Association-list lookup keyed by the token's string form
(`BRIDGES.load`). -/
def lookupBridge : List (String × AssetInfo) → String → Option AssetInfo
  | [], _ => none
  | (k, v) :: rest, key => if k = key then some v else lookupBridge rest key

/-- The duplicate check of `collect`: fold over the string forms inserting
each into a seen-set, failing on the first repeat
(`assets.into_iter().all(|a| uniq.insert(a.info.to_string()))`). -/
def allUniqueAux (seen : List String) : List String → Bool
  | [] => true
  | s :: rest => if s ∈ seen then false else allUniqueAux (s :: seen) rest

/-- The per-item spendable amount of the batch swap planner
(`contract.rs` lines 265-270): the held balance, overridden by the cap
when the cap is positive and strictly below the balance. -/
def spendable (balance : Nat) (limit : Option Nat) : Nat :=
  match limit with
  | some l => if l < balance ∧ 0 < l then l else balance
  | none => balance

/-- Insertion into the deduplicated bridge-token collection
(`bridge_assets.insert(asset.to_string(), asset)`): keyed by the string
form, overwriting the value on a repeated key. -/
def insertBridgeAsset (m : List (String × AssetInfo)) (a : AssetInfo) :
    List (String × AssetInfo) :=
  if m.any (fun p => decide (p.1 = a.toString)) then
    m.map (fun p => if p.1 = a.toString then (p.1, a) else p)
  else m ++ [(a.toString, a)]

/-- Modelled from the spec: `try_build_swap_msg` (utils.rs, absent from
src/).  The Liquidity Pool Gateway attempts a direct pool query for the
pair and, on success, produces the swap instruction for the amount;
absent a pool it fails. -/
def try_build_swap_msg (q : Querier) (_cfg : Config)
    (offer ask : AssetInfo) (amount : Nat) : Except ContractError SubMsg :=
  if q.pairExists offer ask then Except.ok (SubMsg.swap offer ask amount)
  else Except.error (ContractError.Std "pair not found")

/-- Modelled from the spec: `build_swap_msg` (utils.rs, absent from src/).
Given an already validated pool, produce the swap instruction converting
`offer` into `ask` for the amount (always succeeds once the pool exists). -/
def build_swap_msg (_pool : AssetInfo × AssetInfo)
    (offer ask : AssetInfo) (amount : Nat) : SubMsg :=
  SubMsg.swap offer ask amount

/-- Modelled from the spec: the recursion of `validate_bridge` (utils.rs,
absent from src/), spec 4.3.  Starting from `bridge_token`, require the
pool of the current hop, accept when a direct pool to the target token
exists, otherwise follow the next bridge-table entry, bounded by
`BRIDGES_MAX_DEPTH`; on success return the first hop's pool.  `fuel` is a
structural bound kept at least `BRIDGES_MAX_DEPTH + 1` by the wrapper so
that the depth ceiling always fires first. -/
def validateBridgeFuel (q : Querier) (bridges : List (String × AssetInfo))
    (roids : AssetInfo) :
    Nat → AssetInfo → AssetInfo → Nat → Except ContractError (AssetInfo × AssetInfo)
  | 0, _, _, depth => Except.error (ContractError.MaxBridgeDepth depth)
  | fuel + 1, from_token, bridge_token, depth =>
    if q.pairExists from_token bridge_token = false then
      Except.error (ContractError.InvalidBridgeNoPool from_token bridge_token)
    else if q.pairExists bridge_token roids then
      Except.ok (from_token, bridge_token)
    else if BRIDGES_MAX_DEPTH ≤ depth then
      Except.error (ContractError.MaxBridgeDepth depth)
    else
      match lookupBridge bridges bridge_token.toString with
      | none => Except.error (ContractError.InvalidBridgeDestination from_token)
      | some next =>
        match validateBridgeFuel q bridges roids fuel bridge_token next (depth + 1) with
        | Except.error e => Except.error e
        | Except.ok _ => Except.ok (from_token, bridge_token)

/-- Modelled from the spec: `validate_bridge` (utils.rs, absent from
src/), spec 4.3: confirm that the bridge path starting at `bridge_token`
terminates at the target token within the fixed lookup depth, every hop
backed by an existing pool; return the pool of the first hop. -/
def validate_bridge (q : Querier) (bridges : List (String × AssetInfo))
    (from_token bridge_token roids : AssetInfo) (depth : Nat) :
    Except ContractError (AssetInfo × AssetInfo) :=
  validateBridgeFuel q bridges roids (BRIDGES_MAX_DEPTH + 1) from_token bridge_token depth

/-- Modelled from the spec: `build_distribute_msg` (utils.rs, absent from
src/), spec 4.4 and the data flow of spec 2: when the planner produced
bridge-bound instructions, the appended self-instruction is "continue
routing over the deduplicated bridge-token set, at the given depth";
with no bridge tokens left, the downstream distribution sink is invoked
instead. -/
def build_distribute_msg (bridge_assets : List AssetInfo) (depth : Nat) : SubMsg :=
  if bridge_assets.isEmpty then SubMsg.distributeAstro
  else SubMsg.swapBridgeAssets bridge_assets depth

/-- Tier 3 of the route resolver (`contract.rs` lines 344-351): a direct
pool against the ROIDS target token, else the unroutable-token error. -/
def swap_direct (q : Querier) (cfg : Config) (from_token : AssetInfo)
    (amount_in : Nat) : Except ContractError SwapTarget :=
  match try_build_swap_msg q cfg from_token cfg.roids_token amount_in with
  | Except.ok msg => Except.ok (SwapTarget.roids msg)
  | Except.error _ => Except.error (ContractError.CannotSwap from_token)

/-- The route resolver (`fn swap`, `contract.rs` lines 293-352): tier 1
the bridge table (validated, classified by whether the mapped token is
the target), tier 2 the configured default bridge, tier 3 the direct
pool, else the unroutable-token error. -/
def swap (q : Querier) (bridges : List (String × AssetInfo)) (cfg : Config)
    (from_token : AssetInfo) (amount_in : Nat) : Except ContractError SwapTarget :=
  match lookupBridge bridges from_token.toString with
  | some bridge_token =>
    match validate_bridge q bridges from_token bridge_token cfg.roids_token
        BRIDGES_INITIAL_DEPTH with
    | Except.error e => Except.error e
    | Except.ok bridge_pool =>
      let msg := build_swap_msg bridge_pool from_token bridge_token amount_in
      if bridge_token = cfg.roids_token then Except.ok (SwapTarget.roids msg)
      else Except.ok (SwapTarget.bridge bridge_token msg)
  | none =>
    match cfg.default_bridge with
    | some default_bridge =>
      if from_token ≠ default_bridge then
        match try_build_swap_msg q cfg from_token default_bridge amount_in with
        | Except.ok msg => Except.ok (SwapTarget.bridge default_bridge msg)
        | Except.error _ => swap_direct q cfg from_token amount_in
      else swap_direct q cfg from_token amount_in
    | none => swap_direct q cfg from_token amount_in

/-- Loop of the batch swap planner (`fn swap_assets`, `contract.rs` lines
254-286): per item compute the spendable amount, skip zero, resolve the
route, collect the instructions in invocation order and the deduplicated
bridge-token collection; a resolver failure aborts the whole batch. -/
def swap_assets_loop (q : Querier) (st : State) (cfg : Config) :
    List AssetWithLimit → List SubMsg → List (String × AssetInfo) →
    Except ContractError (List SubMsg × List (String × AssetInfo))
  | [], msgs, bam => Except.ok (msgs, bam)
  | a :: rest, msgs, bam =>
    if spendable (q.balanceOf a.info) a.limit = 0 then
      swap_assets_loop q st cfg rest msgs bam
    else
      match swap q st.bridges cfg a.info (spendable (q.balanceOf a.info) a.limit) with
      | Except.error e => Except.error e
      | Except.ok (SwapTarget.roids msg) =>
        swap_assets_loop q st cfg rest (msgs ++ [msg]) bam
      | Except.ok (SwapTarget.bridge asset msg) =>
        swap_assets_loop q st cfg rest (msgs ++ [msg]) (insertBridgeAsset bam asset)

/-- The batch swap planner (`fn swap_assets`): instruction list in
invocation order plus the deduplicated bridge-token set
(`bridge_assets.into_values()`). -/
def swap_assets (q : Querier) (st : State) (cfg : Config)
    (assets : List AssetWithLimit) :
    Except ContractError (List SubMsg × List AssetInfo) :=
  match swap_assets_loop q st cfg assets [] [] with
  | Except.error e => Except.error e
  | Except.ok (msgs, bam) => Except.ok (msgs, bam.map Prod.snd)

/-- The start-collection entry point (`fn collect`, `contract.rs` lines
184-239): the cooldown gate updates the last-collection timestamp or
rejects, the duplicate guard checks the string forms, then the planner
runs over the items whose token differs from the ROIDS target token.
In this version of the source the continuation dispatch block is
commented out, so the response carries the swap instructions only. -/
def collect (q : Querier) (env : Env) (st : State)
    (assets : List AssetWithLimit) :
    Except ContractError (State × List SubMsg) :=
  match (match st.config.collect_cooldown with
         | some cd_period =>
           if env.now < st.last_collect_ts + cd_period then
             Except.error (ContractError.Cooldown (st.last_collect_ts + cd_period))
           else Except.ok env.now
         | none => Except.ok env.now : Except ContractError Nat) with
  | Except.error e => Except.error e
  | Except.ok new_ts =>
    if allUniqueAux [] (assets.map (fun a => a.info.toString)) then
      match swap_assets q { st with last_collect_ts := new_ts } st.config
          (assets.filter (fun a => decide (a.info ≠ st.config.roids_token))) with
      | Except.error e => Except.error e
      | Except.ok (msgs, _bridge_assets) =>
        Except.ok ({ st with last_collect_ts := new_ts }, msgs)
    else Except.error ContractError.DuplicatedAsset

/-- One committed invocation of the start-collection entry point: the
substrate is atomic per invocation, so an error leaves the persistent
state unchanged and a success commits the returned state. -/
def collectStep (q : Querier) (env : Env) (st : State)
    (assets : List AssetWithLimit) :
    State × Except ContractError (List SubMsg) :=
  match collect q env st assets with
  | Except.error e => (st, Except.error e)
  | Except.ok (st2, msgs) => (st2, Except.ok msgs)

/-- Whether the cooldown gate would reject a call at time `now`. -/
def cooldownBlocked (st : State) (now : Nat) : Bool :=
  match st.config.collect_cooldown with
  | some cd_period => decide (now < st.last_collect_ts + cd_period)
  | none => false

/-- The continue-routing entry point (`fn swap_bridge_assets`,
`contract.rs` lines 362-405): self-origination check, empty-set no-op,
depth ceiling, then the planner over the bridge tokens with no caps; an
empty instruction list is an internal-consistency error, otherwise the
next continuation instruction is appended after the swaps. -/
def swap_bridge_assets (q : Querier) (env : Env) (info : MessageInfo)
    (st : State) (assets : List AssetInfo) (depth : Nat) :
    Except ContractError (List SubMsg) :=
  if info.sender ≠ env.contract_address then
    Except.error ContractError.Unauthorized
  else if assets.isEmpty then Except.ok []
  else if BRIDGES_EXECUTION_MAX_DEPTH ≤ depth then
    Except.error (ContractError.MaxBridgeDepth depth)
  else
    match swap_assets q st st.config (assets.map (fun a => AssetWithLimit.mk a none)) with
    | Except.error e => Except.error e
    | Except.ok (msgs, bridge_assets) =>
      if msgs.isEmpty then
        Except.error (ContractError.Std "Empty swap messages")
      else Except.ok (msgs ++ [build_distribute_msg bridge_assets (depth + 1)])

/-- The distribution computation (`fn distribute`): reads the held ROIDS
balance; in this version of the source it pushes no transfer message
(the transfer block is commented out). -/
def distribute (q : Querier) (cfg : Config) :
    List SubMsg × List (String × String) :=
  if q.balanceOf cfg.roids_token = 0 then ([], [])
  else ([], [("action", "distribute_roids")])

/-- The distribution entry point (`fn distribute_astro`, `contract.rs`
lines 411-425): self-origination check, then the distribution
computation; an empty message list yields the default response. -/
def distribute_astro (q : Querier) (env : Env) (info : MessageInfo)
    (st : State) : Except ContractError (List SubMsg) :=
  if info.sender ≠ env.contract_address then
    Except.error ContractError.Unauthorized
  else if (distribute q st.config).1.isEmpty then Except.ok []
  else Except.ok (distribute q st.config).1

/-! Concrete fixtures used by witnesses and counterexamples. -/

/-- The ROIDS target token of the fixtures. -/
def roidsT : AssetInfo := AssetInfo.native "roids"

/-- A fee token of the fixtures. -/
def feeA : AssetInfo := AssetInfo.native "feeA"

/-- A bridge token of the fixtures. -/
def bridgeB : AssetInfo := AssetInfo.native "bridgeB"

/-- A querier reporting no balances and no pools. -/
def qZero : Querier := ⟨fun _ => 0, fun _ _ => false⟩

/-- A querier holding 100 of `feeA`, with pools feeA/bridgeB and
bridgeB/roids. -/
def qRoute : Querier :=
  ⟨fun a => if a = feeA then 100 else 0,
   fun a b => decide ((a = feeA ∧ b = bridgeB) ∨ (a = bridgeB ∧ b = roidsT))⟩

/-- A configuration with no cooldown and no default bridge. -/
def cfgPlain : Config :=
  { owner := "owner", factory_contract := "factory", default_bridge := none,
    roids_token := roidsT, collect_cooldown := none }

/-- A configuration with a 60-second cooldown. -/
def cfgCd : Config := { cfgPlain with collect_cooldown := some 60 }

/-- State with the bridge entry feeA to bridgeB and last collection at 1000. -/
def stRoute : State :=
  { config := cfgPlain, bridges := [("feeA", bridgeB)], last_collect_ts := 1000 }

/-- State with a 60-second cooldown, no bridges, last collection at 1000. -/
def stCd : State :=
  { config := cfgCd, bridges := [], last_collect_ts := 1000 }

/-! Helper lemmas shared by the claim theorems. -/

/-- The seen-set fold of the duplicate guard accepts exactly the lists
with no repeated element among themselves or against the seen set. -/
theorem allUniqueAux_eq_true_iff (l : List String) :
    ∀ seen, allUniqueAux seen l = true ↔ (l.Nodup ∧ ∀ s ∈ seen, s ∉ l) := by
  induction l with
  | nil => intro seen; simp [allUniqueAux]
  | cons s rest ih =>
    intro seen
    simp only [allUniqueAux]
    split
    · rename_i hmem
      constructor
      · intro h; cases h
      · rintro ⟨_, hs⟩
        exact absurd (List.mem_cons_self s rest) (hs s hmem)
    · rename_i hmem
      rw [ih (s :: seen)]
      constructor
      · rintro ⟨hnd, hall⟩
        refine ⟨List.nodup_cons.mpr ⟨hall s (List.mem_cons_self s seen), hnd⟩, ?_⟩
        intro x hx
        intro hxmem
        rcases List.mem_cons.mp hxmem with hxs | hxrest
        · exact hmem (hxs ▸ hx)
        · exact hall x (List.mem_cons_of_mem s hx) hxrest
      · rintro ⟨hnd, hall⟩
        rcases List.nodup_cons.mp hnd with ⟨hs, hrest⟩
        refine ⟨hrest, ?_⟩
        intro x hx
        rcases List.mem_cons.mp hx with hxs | hxseen
        · exact hxs ▸ hs
        · intro hxrest
          exact hall x hxseen (List.mem_cons_of_mem s hxrest)

/-- A bridge-path validation never fails with a cooldown error. -/
theorem validateBridgeFuel_no_cooldown (q : Querier)
    (bridges : List (String × AssetInfo)) (roids : AssetInfo) :
    ∀ fuel ft bt d t,
      validateBridgeFuel q bridges roids fuel ft bt d ≠
        Except.error (ContractError.Cooldown t) := by
  intro fuel
  induction fuel with
  | zero =>
    intro ft bt d t h
    simp [validateBridgeFuel] at h
  | succ n ih =>
    intro ft bt d t h
    unfold validateBridgeFuel at h
    split at h
    · simp at h
    · split at h
      · simp at h
      · split at h
        · simp at h
        · split at h
          · simp at h
          · split at h
            · rename_i e heq
              simp only [Except.error.injEq] at h
              exact ih _ _ _ t (h ▸ heq)
            · simp at h

/-- The route resolver never fails with a cooldown error. -/
theorem swap_no_cooldown (q : Querier) (bridges : List (String × AssetInfo))
    (cfg : Config) (ft : AssetInfo) (amt : Nat) (t : Nat) :
    swap q bridges cfg ft amt ≠ Except.error (ContractError.Cooldown t) := by
  intro h
  unfold swap at h
  split at h
  · split at h
    · rename_i e heq
      simp only [Except.error.injEq] at h
      exact validateBridgeFuel_no_cooldown q bridges cfg.roids_token _ _ _ _ t (h ▸ heq)
    · split at h <;> simp at h
  · have hdir : ∀ tok, swap_direct q cfg tok amt ≠
        Except.error (ContractError.Cooldown t) := by
      intro tok hd
      unfold swap_direct at hd
      split at hd <;> simp at hd
    split at h
    · split at h
      · split at h
        · simp at h
        · exact hdir _ h
      · exact hdir _ h
    · exact hdir _ h

/-- The batch swap planner loop never fails with a cooldown error. -/
theorem swap_assets_loop_no_cooldown (q : Querier) (st : State) (cfg : Config) :
    ∀ (assets : List AssetWithLimit) msgs bam t,
      swap_assets_loop q st cfg assets msgs bam ≠
        Except.error (ContractError.Cooldown t) := by
  intro assets
  induction assets with
  | nil => intro msgs bam t h; simp [swap_assets_loop] at h
  | cons a rest ih =>
    intro msgs bam t h
    unfold swap_assets_loop at h
    split at h
    · exact ih _ _ t h
    · split at h
      · rename_i e heq
        simp only [Except.error.injEq] at h
        exact swap_no_cooldown q st.bridges cfg a.info _ t (h ▸ heq)
      · exact ih _ _ t h
      · exact ih _ _ t h

/-- The batch swap planner never fails with a cooldown error. -/
theorem swap_assets_no_cooldown (q : Querier) (st : State) (cfg : Config)
    (assets : List AssetWithLimit) (t : Nat) :
    swap_assets q st cfg assets ≠ Except.error (ContractError.Cooldown t) := by
  intro h
  unfold swap_assets at h
  split at h
  · rename_i e heq
    simp only [Except.error.injEq] at h
    exact swap_assets_loop_no_cooldown q st cfg assets [] [] t (h ▸ heq)
  · simp at h

/-- State with a 60-second cooldown after a successful collection at 1061. -/
def stCdAfter : State := { stCd with last_collect_ts := 1061 }

/-- When the gate is open, the start-collection call never fails with a
cooldown error. -/
theorem collect_no_cooldown_when_open (q : Querier) (env : Env) (st : State)
    (assets : List AssetWithLimit) (t : Nat)
    (hgate : cooldownBlocked st env.now = false) :
    collect q env st assets ≠ Except.error (ContractError.Cooldown t) := by
  intro h
  unfold collect at h
  split at h
  · rename_i e heq
    simp only [Except.error.injEq] at h
    subst h
    split at heq
    · rename_i cd_period hcc
      split at heq
      · rename_i hlt
        unfold cooldownBlocked at hgate
        rw [hcc] at hgate
        simp only [decide_eq_false_iff_not] at hgate
        exact hgate hlt
      · simp at heq
    · simp at heq
  · split at h
    · split at h
      · rename_i e heq
        simp only [Except.error.injEq] at h
        exact swap_assets_no_cooldown q _ st.config _ t (h ▸ heq)
      · simp at h
    · simp at h

/-- A successful start-collection call sets the last-collection timestamp
to the current block time. -/
theorem collect_ok_sets_ts (q : Querier) (env : Env) (st : State)
    (assets : List AssetWithLimit) (st2 : State) (msgs : List SubMsg)
    (h : collect q env st assets = Except.ok (st2, msgs)) :
    st2.last_collect_ts = env.now := by
  unfold collect at h
  split at h
  · simp at h
  · rename_i new_ts heq
    have hts : new_ts = env.now := by
      split at heq
      · split at heq
        · simp at heq
        · exact (Except.ok.inj heq).symm
      · exact (Except.ok.inj heq).symm
    split at h
    · split at h
      · simp at h
      · simp only [Except.ok.injEq, Prod.mk.injEq] at h
        rw [← h.1]
        exact hts
    · simp at h

/-- C3: a start-collection call earlier than the last collection time plus
a configured cooldown fails with the cooldown error carrying the
next-eligible timestamp and changes nothing; when the gate is open (no
cooldown configured, or the period elapsed) the call is never rejected for
cooldown, and a successful call sets the last-collection timestamp to the
current time. -/
theorem collect_cooldown_gate (q : Querier) (env : Env) (st : State)
    (assets : List AssetWithLimit) :
    (∀ cd, st.config.collect_cooldown = some cd →
      env.now < st.last_collect_ts + cd →
      collectStep q env st assets =
        (st, Except.error (ContractError.Cooldown (st.last_collect_ts + cd)))) ∧
    (cooldownBlocked st env.now = false →
      (∀ t, (collectStep q env st assets).2 ≠
          Except.error (ContractError.Cooldown t)) ∧
      (∀ st2 msgs, collect q env st assets = Except.ok (st2, msgs) →
          st2.last_collect_ts = env.now)) := by
  constructor
  · intro cd hcd hlt
    have hc : collect q env st assets =
        Except.error (ContractError.Cooldown (st.last_collect_ts + cd)) := by
      unfold collect
      simp [hcd, hlt]
    unfold collectStep
    rw [hc]
  · intro hopen
    constructor
    · intro t hbad
      unfold collectStep at hbad
      cases hc : collect q env st assets with
      | error e =>
        rw [hc] at hbad
        simp only [Except.error.injEq] at hbad
        exact collect_no_cooldown_when_open q env st assets t hopen (hbad ▸ hc)
      | ok p =>
        obtain ⟨st2, msgs⟩ := p
        rw [hc] at hbad
        simp at hbad
    · intro st2 msgs h
      exact collect_ok_sets_ts q env st assets st2 msgs h

/-- Witness for C3 at the spec scenario: cooldown 60, last collection at
1000; a call at 1030 fails with next-eligible time 1060 leaving state
unchanged, and a call at 1061 succeeds setting the timestamp to 1061. -/
theorem collect_cooldown_gate_witness :
    collectStep qZero ⟨"maker", 1030⟩ stCd [] =
      (stCd, Except.error (ContractError.Cooldown 1060)) ∧
    collect qZero ⟨"maker", 1061⟩ stCd [] = Except.ok (stCdAfter, []) ∧
    stCdAfter.last_collect_ts = 1061 := by
  refine ⟨?_, ?_, ?_⟩
  · exact (collect_cooldown_gate qZero ⟨"maker", 1030⟩ stCd []).1 60 rfl
      (by decide)
  · decide
  · exact ((collect_cooldown_gate qZero ⟨"maker", 1061⟩ stCd []).2
      (by decide)).2 stCdAfter [] (by decide)

/-- Counterexample to C4: a call at 1061 (cooldown 60, last collection at
1000) with a duplicated asset list fails after the gate, and the committed
last-collection timestamp stays 1000 rather than the current time 1061:
the failed attempt does not consume a cooldown window. -/
theorem collect_failed_attempt_old_ts_cex :
    collectStep qZero ⟨"maker", 1061⟩ stCd [⟨feeA, none⟩, ⟨feeA, none⟩] =
      (stCd, Except.error ContractError.DuplicatedAsset) ∧
    (collectStep qZero ⟨"maker", 1061⟩ stCd
        [⟨feeA, none⟩, ⟨feeA, none⟩]).1.last_collect_ts = 1000 ∧
    (1000 : Nat) ≠ 1061 := by
  refine ⟨by decide, by decide, by decide⟩

/-- C4 amended: the timestamp write happens inside the invocation before
the later checks, but an invocation that fails is committed atomically
with no effect, so the persistent state — the last-collection timestamp
included — is exactly the state before the call. -/
theorem collect_failure_reverts (q : Querier) (env : Env) (st : State)
    (assets : List AssetWithLimit) (e : ContractError)
    (h : (collectStep q env st assets).2 = Except.error e) :
    (collectStep q env st assets).1 = st := by
  unfold collectStep at h ⊢
  cases hc : collect q env st assets with
  | error e2 => rfl
  | ok p =>
    obtain ⟨st2, msgs⟩ := p
    rw [hc] at h
    simp at h

/-- Witness for the amended C4 at the concrete failing call. -/
theorem collect_failure_reverts_witness :
    (collectStep qZero ⟨"maker", 1061⟩ stCd
        [⟨feeA, none⟩, ⟨feeA, none⟩]).1 = stCd :=
  collect_failure_reverts qZero ⟨"maker", 1061⟩ stCd
    [⟨feeA, none⟩, ⟨feeA, none⟩] ContractError.DuplicatedAsset (by decide)

/-- Counterexample to C5: a start-collection call at 1030 (cooldown 60,
last collection at 1000) with the same token listed twice fails with the
cooldown error, not the duplicate-asset error: the duplicate guard runs
after the cooldown gate. -/
theorem collect_duplicate_behind_cooldown_cex :
    collect qZero ⟨"maker", 1030⟩ stCd [⟨feeA, none⟩, ⟨feeA, none⟩] =
      Except.error (ContractError.Cooldown 1060) ∧
    collect qZero ⟨"maker", 1030⟩ stCd [⟨feeA, none⟩, ⟨feeA, none⟩] ≠
      Except.error ContractError.DuplicatedAsset := by
  refine ⟨by decide, by decide⟩

/-- C5 amended: every start-collection call that passes the cooldown gate
and lists the same token more than once fails with the duplicate-asset
error; the outcome is the same for every querier (so no balance can have
been consulted) and the committed state is unchanged. -/
theorem collect_duplicate_guard (env : Env) (st : State)
    (assets : List AssetWithLimit)
    (hgate : cooldownBlocked st env.now = false)
    (hdup : ¬ (assets.map (fun a => a.info.toString)).Nodup) :
    ∀ q, collectStep q env st assets =
      (st, Except.error ContractError.DuplicatedAsset) := by
  intro q
  have hfalse : allUniqueAux [] (assets.map (fun a => a.info.toString)) = false := by
    cases hau : allUniqueAux [] (assets.map (fun a => a.info.toString)) with
    | false => rfl
    | true => exact absurd ((allUniqueAux_eq_true_iff _ []).mp hau).1 hdup
  have hc : collect q env st assets = Except.error ContractError.DuplicatedAsset := by
    unfold collect
    cases hcc : st.config.collect_cooldown with
    | none => simp [hfalse]
    | some cd_period =>
      unfold cooldownBlocked at hgate
      rw [hcc] at hgate
      simp only [decide_eq_false_iff_not] at hgate
      simp [hgate, hfalse]
  unfold collectStep
  rw [hc]

/-- Witness for the amended C5: a duplicated pair of `feeA` items at an
open gate fails with the duplicate-asset error and leaves state unchanged. -/
theorem collect_duplicate_guard_witness :
    collectStep qRoute ⟨"maker", 1061⟩ stCd [⟨feeA, none⟩, ⟨feeA, none⟩] =
      (stCd, Except.error ContractError.DuplicatedAsset) :=
  collect_duplicate_guard ⟨"maker", 1061⟩ stCd [⟨feeA, none⟩, ⟨feeA, none⟩]
    (by decide) (by decide) qRoute

/-- C7: a continue-routing invocation whose caller is not the contract's
own address fails with the unauthorized error, whatever the token set and
depth. -/
theorem swap_bridge_assets_unauthorized (q : Querier) (env : Env)
    (info : MessageInfo) (st : State) (assets : List AssetInfo) (depth : Nat)
    (h : info.sender ≠ env.contract_address) :
    swap_bridge_assets q env info st assets depth =
      Except.error ContractError.Unauthorized := by
  unfold swap_bridge_assets
  rw [if_pos h]

/-- Witness for C7 with an external caller. -/
theorem swap_bridge_assets_unauthorized_witness :
    swap_bridge_assets qRoute ⟨"maker", 0⟩ ⟨"mallory"⟩ stRoute [bridgeB] 1 =
      Except.error ContractError.Unauthorized :=
  swap_bridge_assets_unauthorized qRoute ⟨"maker", 0⟩ ⟨"mallory"⟩ stRoute
    [bridgeB] 1 (by decide)

/-- C9: a distribute invocation whose caller is not the contract's own
address fails with the unauthorized error. -/
theorem distribute_astro_unauthorized (q : Querier) (env : Env)
    (info : MessageInfo) (st : State)
    (h : info.sender ≠ env.contract_address) :
    distribute_astro q env info st = Except.error ContractError.Unauthorized := by
  unfold distribute_astro
  rw [if_pos h]

/-- Witness for C9 with an external caller. -/
theorem distribute_astro_unauthorized_witness :
    distribute_astro qRoute ⟨"maker", 0⟩ ⟨"mallory"⟩ stRoute =
      Except.error ContractError.Unauthorized :=
  distribute_astro_unauthorized qRoute ⟨"maker", 0⟩ ⟨"mallory"⟩ stRoute
    (by decide)

/-- C6: the planner's spendable amount is `min(held_balance, cap)` when the
cap is positive and strictly below the held balance, the full held balance
otherwise (a zero cap and a cap at or above the balance are ignored), and
an item whose spendable amount is zero contributes no instruction. -/
theorem planner_spendable (bal cap : Nat) (q : Querier) (st : State)
    (cfg : Config) (a : AssetWithLimit) (rest : List AssetWithLimit) :
    (0 < cap → cap < bal → spendable bal (some cap) = min bal cap) ∧
    (cap = 0 ∨ bal ≤ cap → spendable bal (some cap) = bal) ∧
    spendable bal none = bal ∧
    (spendable (q.balanceOf a.info) a.limit = 0 →
      swap_assets q st cfg (a :: rest) = swap_assets q st cfg rest) := by
  refine ⟨?_, ?_, rfl, ?_⟩
  · intro hpos hlt
    rw [min_eq_right hlt.le]
    show (if cap < bal ∧ 0 < cap then cap else bal) = cap
    rw [if_pos ⟨hlt, hpos⟩]
  · intro hcase
    show (if cap < bal ∧ 0 < cap then cap else bal) = bal
    rcases hcase with h0 | hge
    · subst h0
      rw [if_neg]
      rintro ⟨_, hcontra⟩
      exact Nat.lt_irrefl 0 hcontra
    · rw [if_neg]
      rintro ⟨hcontra, _⟩
      exact absurd hge (Nat.not_le.mpr hcontra)
  · intro h0
    have hloop : swap_assets_loop q st cfg (a :: rest) [] [] =
        swap_assets_loop q st cfg rest [] [] := by
      rw [swap_assets_loop]
      rw [if_pos h0]
    unfold swap_assets
    rw [hloop]

/-- Witness for C6: a cap of 3 below a balance of 10 yields the minimum, a
zero cap is ignored, no cap takes the full balance, and a zero-balance item
is skipped by the planner. -/
theorem planner_spendable_witness :
    spendable 10 (some 3) = min 10 3 ∧
    spendable 10 (some 0) = 10 ∧
    spendable 10 none = 10 ∧
    swap_assets qZero stRoute cfgPlain [⟨feeA, none⟩] =
      swap_assets qZero stRoute cfgPlain [] := by
  refine ⟨?_, ?_, ?_, ?_⟩
  · exact (planner_spendable 10 3 qZero stRoute cfgPlain ⟨feeA, none⟩ []).1
      (by decide) (by decide)
  · exact (planner_spendable 10 0 qZero stRoute cfgPlain ⟨feeA, none⟩ []).2.1
      (Or.inl rfl)
  · exact (planner_spendable 10 0 qZero stRoute cfgPlain ⟨feeA, none⟩ []).2.2.1
  · exact (planner_spendable 10 0 qZero stRoute cfgPlain ⟨feeA, none⟩ []).2.2.2
      (by decide)

/-- C2: the route resolver evaluates exactly three tiers in order, first
match winning.  Tier 1: an existing bridge-table entry is validated — a
validation failure aborts with that error, a validated entry yields a swap
to the mapped token, direct-to-target exactly when the mapped token is the
target.  Tier 2: otherwise a configured default bridge different from the
source with an existing pool yields a bridge-bound swap.  Tier 3:
otherwise a direct pool against the target yields a direct swap, else the
unroutable-token error names the source token. -/
theorem swap_resolution_order (q : Querier)
    (bridges : List (String × AssetInfo)) (cfg : Config) (ft : AssetInfo)
    (amt : Nat) (_hamt : 0 < amt) :
    (∀ bt, lookupBridge bridges ft.toString = some bt →
      (∀ e, validate_bridge q bridges ft bt cfg.roids_token
          BRIDGES_INITIAL_DEPTH = Except.error e →
        swap q bridges cfg ft amt = Except.error e) ∧
      (∀ pool, validate_bridge q bridges ft bt cfg.roids_token
          BRIDGES_INITIAL_DEPTH = Except.ok pool →
        swap q bridges cfg ft amt =
          (if bt = cfg.roids_token then
            Except.ok (SwapTarget.roids (SubMsg.swap ft bt amt))
          else Except.ok (SwapTarget.bridge bt (SubMsg.swap ft bt amt))))) ∧
    (lookupBridge bridges ft.toString = none →
      (∀ db, cfg.default_bridge = some db → ft ≠ db →
        q.pairExists ft db = true →
        swap q bridges cfg ft amt =
          Except.ok (SwapTarget.bridge db (SubMsg.swap ft db amt))) ∧
      ((cfg.default_bridge = none ∨
        ∃ db, cfg.default_bridge = some db ∧
          (ft = db ∨ q.pairExists ft db = false)) →
        (q.pairExists ft cfg.roids_token = true →
          swap q bridges cfg ft amt =
            Except.ok (SwapTarget.roids (SubMsg.swap ft cfg.roids_token amt))) ∧
        (q.pairExists ft cfg.roids_token = false →
          swap q bridges cfg ft amt =
            Except.error (ContractError.CannotSwap ft)))) := by
  constructor
  · intro bt hbt
    constructor
    · intro e he
      simp [swap, hbt, he]
    · intro pool hp
      simp only [swap, hbt, hp, build_swap_msg]
  · intro hnone
    constructor
    · intro db hdb hne hpe
      simp [swap, hnone, hdb, try_build_swap_msg, hpe, hne]
    · intro hd
      have hdirect : ∀ b : Bool, q.pairExists ft cfg.roids_token = b →
          swap_direct q cfg ft amt =
            (if b then
              Except.ok (SwapTarget.roids (SubMsg.swap ft cfg.roids_token amt))
            else Except.error (ContractError.CannotSwap ft)) := by
        intro b hb
        cases b <;> simp [swap_direct, try_build_swap_msg, hb]
      have hstep : swap q bridges cfg ft amt = swap_direct q cfg ft amt := by
        rcases hd with hnodb | ⟨db, hdb, hcase⟩
        · simp [swap, hnone, hnodb]
        · by_cases hfd : ft = db
          · subst hfd
            simp [swap, hnone, hdb]
          · rcases hcase with hfd2 | hnp
            · exact absurd hfd2 hfd
            · simp [swap, hnone, hdb, hfd, try_build_swap_msg, hnp]
      constructor
      · intro hpair
        rw [hstep]
        simpa using hdirect true hpair
      · intro hpair
        rw [hstep]
        simpa using hdirect false hpair

/-- Witness for C2 at a concrete unroutable token: no bridge entry, no
default bridge, no direct pool — the resolver fails naming `feeA`. -/
theorem swap_resolution_order_witness :
    swap qZero [] cfgPlain feeA 5 =
      Except.error (ContractError.CannotSwap feeA) :=
  (((swap_resolution_order qZero [] cfgPlain feeA 5 (by decide)).2 rfl).2
    (Or.inl rfl)).2 rfl

/-- Counterexample to C8: a self-originated continue-routing call at the
maximum depth with an empty token set succeeds as a no-op instead of
failing with the depth-exceeded error — the empty-set check runs before
the depth ceiling. -/
theorem depth_ceiling_empty_set_cex :
    swap_bridge_assets qRoute ⟨"maker", 0⟩ ⟨"maker"⟩ stRoute []
        BRIDGES_EXECUTION_MAX_DEPTH = Except.ok [] ∧
    swap_bridge_assets qRoute ⟨"maker", 0⟩ ⟨"maker"⟩ stRoute []
        BRIDGES_EXECUTION_MAX_DEPTH ≠
      Except.error (ContractError.MaxBridgeDepth BRIDGES_EXECUTION_MAX_DEPTH) := by
  refine ⟨by decide, by decide⟩

/-- C8 amended: a self-originated continue-routing call with a non-empty
token set at depth at least the fixed maximum fails with the
depth-exceeded error carrying the depth reached (an empty token set is a
no-op success at any depth); at depth max-1, a non-empty token set the
planner can route succeeds, appending the next continuation. -/
theorem swap_bridge_assets_depth_ceiling (q : Querier) (env : Env)
    (info : MessageInfo) (st : State) (assets : List AssetInfo) (depth : Nat)
    (hself : info.sender = env.contract_address) (hne : assets ≠ []) :
    (BRIDGES_EXECUTION_MAX_DEPTH ≤ depth →
      swap_bridge_assets q env info st assets depth =
        Except.error (ContractError.MaxBridgeDepth depth)) ∧
    (depth = BRIDGES_EXECUTION_MAX_DEPTH - 1 →
      ∀ msgs bridge_assets,
        swap_assets q st st.config
            (assets.map (fun a => AssetWithLimit.mk a none)) =
          Except.ok (msgs, bridge_assets) →
        msgs ≠ [] →
        swap_bridge_assets q env info st assets depth =
          Except.ok (msgs ++ [build_distribute_msg bridge_assets (depth + 1)])) := by
  have hempty : assets.isEmpty = false := by
    cases assets with
    | nil => exact absurd rfl hne
    | cons a l => rfl
  constructor
  · intro hd
    simp [swap_bridge_assets, hself, hempty, hd]
  · intro hd msgs bridge_assets hsa hmsgs
    subst hd
    have hlt : ¬ (BRIDGES_EXECUTION_MAX_DEPTH ≤
        BRIDGES_EXECUTION_MAX_DEPTH - 1) := by decide
    have hmsgsE : msgs.isEmpty = false := by
      cases msgs with
      | nil => exact absurd rfl hmsgs
      | cons m l => rfl
    simp [swap_bridge_assets, hself, hempty, hlt, hsa, hmsgsE]

/-- Witness for the amended C8: with the bridge route feeA to bridgeB, a
self-originated continuation over `[feeA]` succeeds at depth max-1 and
fails with the depth-exceeded error at depth max. -/
theorem swap_bridge_assets_depth_ceiling_witness :
    swap_bridge_assets qRoute ⟨"maker", 0⟩ ⟨"maker"⟩ stRoute [feeA] 1 =
      Except.ok [SubMsg.swap feeA bridgeB 100,
        SubMsg.swapBridgeAssets [bridgeB] 2] ∧
    swap_bridge_assets qRoute ⟨"maker", 0⟩ ⟨"maker"⟩ stRoute [feeA] 2 =
      Except.error (ContractError.MaxBridgeDepth 2) := by
  constructor
  · exact (swap_bridge_assets_depth_ceiling qRoute ⟨"maker", 0⟩ ⟨"maker"⟩
      stRoute [feeA] 1 rfl (by decide)).2 (by decide)
      [SubMsg.swap feeA bridgeB 100] [bridgeB] (by decide) (by decide)
  · exact (swap_bridge_assets_depth_ceiling qRoute ⟨"maker", 0⟩ ⟨"maker"⟩
      stRoute [feeA] 2 rfl (by decide)).1 (by decide)

/-- Evidence for C1: with bridge table feeA to bridgeB and pools
feeA/bridgeB and bridgeB/ROIDS, the resolver classifies feeA as
bridge-bound, yet the start-collection response at this input carries the
single swap instruction and no continue-routing instruction: the dispatch
block of `collect` is commented out in this version of the source. -/
theorem collect_missing_continuation :
    swap qRoute stRoute.bridges cfgPlain feeA 100 =
      Except.ok (SwapTarget.bridge bridgeB (SubMsg.swap feeA bridgeB 100)) ∧
    collect qRoute ⟨"maker", 1234⟩ stRoute [⟨feeA, none⟩] =
      Except.ok ({ stRoute with last_collect_ts := 1234 },
        [SubMsg.swap feeA bridgeB 100]) ∧
    List.all [SubMsg.swap feeA bridgeB 100] (fun m => !m.isContinuation) = true := by
  refine ⟨by decide, by decide, by decide⟩

/-- C10: an item naming the configured target token is silently dropped
before planning — a start-collection call behaves exactly as if the item
were absent, wherever it sits in the list — yet the item still counts for
the duplicate guard: listing the target token twice fails with the
duplicate-asset error. -/
theorem collect_filters_target_token (q : Querier) (env : Env) (st : State)
    (pre post : List AssetWithLimit) (a : AssetWithLimit)
    (hroids : a.info = st.config.roids_token) :
    (allUniqueAux []
        ((pre ++ a :: post).map (fun x => x.info.toString)) = true →
      collect q env st (pre ++ a :: post) = collect q env st (pre ++ post)) ∧
    (∀ rest : List AssetWithLimit,
      cooldownBlocked st env.now = false →
      collect q env st (a :: a :: rest) =
        Except.error ContractError.DuplicatedAsset) := by
  constructor
  · intro hfull
    have hfullN : ((pre ++ a :: post).map (fun x => x.info.toString)).Nodup :=
      ((allUniqueAux_eq_true_iff _ []).mp hfull).1
    have hsubl : List.Sublist ((pre ++ post).map (fun x => x.info.toString))
        ((pre ++ a :: post).map (fun x => x.info.toString)) :=
      ((List.sublist_cons_self a post).append_left pre).map _
    have hsub : allUniqueAux []
        ((pre ++ post).map (fun x => x.info.toString)) = true :=
      (allUniqueAux_eq_true_iff _ []).mpr ⟨hfullN.sublist hsubl, by simp⟩
    have hfilter : (pre ++ a :: post).filter
          (fun x => decide (x.info ≠ st.config.roids_token)) =
        (pre ++ post).filter
          (fun x => decide (x.info ≠ st.config.roids_token)) := by
      simp [List.filter_append, List.filter_cons, hroids]
    unfold collect
    rw [hfull, hsub, hfilter]
  · intro rest hgate
    have hdupF : ∀ l : List String,
        allUniqueAux [] (a.info.toString :: a.info.toString :: l) = false := by
      intro l
      simp [allUniqueAux]
    unfold collect
    cases hcc : st.config.collect_cooldown with
    | none => simp [hdupF]
    | some cd_period =>
      unfold cooldownBlocked at hgate
      rw [hcc] at hgate
      simp only [decide_eq_false_iff_not] at hgate
      simp [hgate, hdupF]

/-- Witness for C10: inserting a ROIDS item after `feeA` leaves the call's
outcome unchanged, while listing the ROIDS token twice fails with the
duplicate-asset error. -/
theorem collect_filters_target_token_witness :
    collect qRoute ⟨"maker", 1234⟩ stRoute [⟨feeA, none⟩, ⟨roidsT, none⟩] =
      collect qRoute ⟨"maker", 1234⟩ stRoute [⟨feeA, none⟩] ∧
    collect qRoute ⟨"maker", 1234⟩ stRoute [⟨roidsT, none⟩, ⟨roidsT, none⟩] =
      Except.error ContractError.DuplicatedAsset := by
  constructor
  · exact (collect_filters_target_token qRoute ⟨"maker", 1234⟩ stRoute
      [⟨feeA, none⟩] [] ⟨roidsT, none⟩ rfl).1 (by decide)
  · exact (collect_filters_target_token qRoute ⟨"maker", 1234⟩ stRoute
      [⟨feeA, none⟩] [] ⟨roidsT, none⟩ rfl).2 [] (by decide)

end Maker
